import Mathlib

/-!
Verification of the CNRadio repository (RadioPlugin.py, somafm_track_retriever.py)
against its natural-language specification.

The Python sources are shallowly embedded as executable Lean definitions:
pure functions become Lean functions, the stateful monitor loop and the
reply-suppression predicate become explicit state-passing step functions,
fallible code returns `Except`/`Option`, and external boundaries (the
`requests` HTTP library, the VLC player, the host event manager, and the
`unicodedata` normalizer) are passed in as explicit parameters/oracles.
Timestamps (Python floats from `time.time()`) are modelled as rationals.
-/

namespace CNRadio

/-! ## Python string primitives (ASCII model)

Python `str.lower()`, `str.strip()`, the `in` substring operator and
`str.split` are modelled on ASCII text: `lower` maps A-Z to a-z (as
`Char.toLower` does), `strip` removes the ASCII whitespace characters
that CPython strips.  The station names, titles and JSON fields exercised
by the claims are ASCII.
-/

/-- Characters treated as whitespace by Python `str.strip()` / regex `\s` (ASCII range). -/
def isPySpace (c : Char) : Bool :=
  c = ' ' || c = '\t' || c = '\n' || c = '\r' || c = '\x0b' || c = '\x0c'

/-- Python `s.strip()` on a character list: drop whitespace from both ends. -/
def pyStripL (cs : List Char) : List Char :=
  ((cs.dropWhile isPySpace).reverse.dropWhile isPySpace).reverse

/-- Python `s.strip()`. -/
def pyStrip (s : String) : String := ⟨pyStripL s.data⟩

/-- Python `s.lower()` (ASCII model). -/
def pyLower (s : String) : String := ⟨s.data.map Char.toLower⟩

/-- Case-sensitive list-prefix test (helper for the substring operator). -/
def listStartsWith : List Char → List Char → Bool
  | [], _ => true
  | _ :: _, [] => false
  | p :: ps, c :: cs => p = c && listStartsWith ps cs

/-- Python `needle in hay` on character lists. -/
def substrL (needle : List Char) : List Char → Bool
  | [] => listStartsWith needle []
  | c :: cs => listStartsWith needle (c :: cs) || substrL needle cs

/-- Python `needle in hay` for strings. -/
def substrB (needle hay : String) : Bool := substrL needle.data hay.data

/-! ## Python values

A minimal model of the Python values that flow through the plugin's event
contents: `None`, booleans, integers, strings and lists.
-/

inductive PyVal where
  | none
  | pb (b : Bool)
  | pi (n : Int)
  | ps (s : String)
  | pl (xs : List PyVal)

/-- Python truthiness (`bool(x)`). -/
def pyTruthy : PyVal → Bool
  | .none => false
  | .pb b => b
  | .pi n => n != 0
  | .ps s => s ≠ ""
  | .pl xs => !xs.isEmpty

mutual
/-- Python `==` on the modelled values (`True == 1` holds, as in Python). -/
def pyEq : PyVal → PyVal → Bool
  | .none, .none => true
  | .pb a, .pb b => a = b
  | .pb a, .pi n => (if a then (1 : Int) else 0) = n
  | .pi n, .pb a => n = (if a then (1 : Int) else 0)
  | .pi a, .pi b => a = b
  | .ps a, .ps b => a = b
  | .pl xs, .pl ys => pyEqL xs ys
  | _, _ => false

/-- Elementwise Python `==` on lists. -/
def pyEqL : List PyVal → List PyVal → Bool
  | [], [] => true
  | x :: xs, y :: ys => pyEq x y && pyEqL xs ys
  | _, _ => false
end

mutual
/-- Python `str(x)` (used by f-string interpolation). -/
def pyStrOf : PyVal → String
  | .none => "None"
  | .pb b => if b then "True" else "False"
  | .pi n => toString n
  | .ps s => s
  | .pl xs => "[" ++ pyReprJoin xs ++ "]"

/-- Comma-joined `repr` of list elements (how Python prints a list). -/
def pyReprJoin : List PyVal → String
  | [] => ""
  | [x] => pyRepr x
  | x :: y :: xs => pyRepr x ++ ", " ++ pyReprJoin (y :: xs)

/-- Python `repr(x)`: like `str` but strings are quoted. -/
def pyRepr : PyVal → String
  | .ps s => "\x27" ++ s ++ "\x27"
  | .none => "None"
  | .pb b => if b then "True" else "False"
  | .pi n => toString n
  | .pl xs => "[" ++ pyReprJoin xs ++ "]"
end

/-- Python exceptions relevant to the embedded code paths. -/
inductive PyErr where
  | typeError
  | indexError
  | attributeError
deriving DecidableEq

/-- Python subscription `x[n]` for a non-negative literal index:
strings index to 1-character strings, lists to their elements; out-of-range
raises `IndexError`; non-subscriptable values raise `TypeError`. -/
def pySubscript : PyVal → Nat → Except PyErr PyVal
  | .ps s, n =>
    match s.data.get? n with
    | some c => .ok (.ps ⟨[c]⟩)
    | Option.none => .error .indexError
  | .pl xs, n =>
    match xs.get? n with
    | some v => .ok v
    | Option.none => .error .indexError
  | .none, _ => .error .typeError
  | .pb _, _ => .error .typeError
  | .pi _, _ => .error .typeError

/-- Python `len(x)` for strings and lists; `TypeError` otherwise. -/
def pyLen : PyVal → Except PyErr Nat
  | .ps s => .ok s.length
  | .pl xs => .ok xs.length
  | _ => .error .typeError

/-- Association-list update modelling Python `d[k] = v`. -/
def assocSet {α β : Type} [DecidableEq α] : List (α × β) → α → β → List (α × β)
  | [], k, v => [(k, v)]
  | (k', v') :: rest, k, v =>
    if k' = k then (k, v) :: rest else (k', v') :: assocSet rest k v

/-! ## somafm_track_retriever.py -/

/-- Character class `[a-z0-9]` used by `re.sub(r'[^a-z0-9]', '', ...)`. -/
def isLowerDigit (c : Char) : Bool :=
  ('a' ≤ c && c ≤ 'z') || ('0' ≤ c && c ≤ '9')

/-- Embedding of `re.sub(r'[^a-z0-9]', '', s)`: keep only `[a-z0-9]`. -/
def reSubNonAlnum (s : String) : String := ⟨s.data.filter isLowerDigit⟩

/-- Python `s.replace(' ', '')`: remove space characters. -/
def removeSpaces (s : String) : String := ⟨s.data.filter (fun c => c ≠ ' ')⟩

/-- Case-insensitive list-prefix test (regex literal under `re.IGNORECASE`). -/
def ciStartsWith : List Char → List Char → Bool
  | [], _ => true
  | _ :: _, [] => false
  | p :: ps, c :: cs => p.toLower = c.toLower && ciStartsWith ps cs

/-- Backtracking split point for `\s+(.+)`: the largest `k` with
`1 ≤ k ≤ bound` such that `rest` has a character at index `k` that `.`
matches (any character but a newline).  `\s+` greedily keeps `k` as large
as possible while leaving at least one `.`-matchable character. -/
def bestSplit (rest : List Char) : Nat → Option Nat
  | 0 => Option.none
  | k + 1 =>
    match (rest.drop (k + 1)).head? with
    | some c => if c ≠ '\n' then some (k + 1) else bestSplit rest k
    | Option.none => bestSplit rest k

/-- Match `\s+(.+)` at the start of `rest` and return group 1 (greedy
semantics: maximal whitespace run, then the maximal run of non-newline
characters). -/
def wsGroup (rest : List Char) : Option (List Char) :=
  let w := (rest.takeWhile isPySpace).length
  match bestSplit rest w with
  | some k => some ((rest.drop k).takeWhile (fun c => c ≠ '\n'))
  | Option.none => Option.none

/-- Embedding of `re.search(r'SomaFM\s+(.+)', name, re.IGNORECASE)`:
scan left to right for a case-insensitive occurrence of `SomaFM` followed
by `\s+(.+)`, returning group 1 of the leftmost match. -/
def searchSomaFMGroup : List Char → Option (List Char)
  | [] => Option.none
  | c :: cs =>
    match
      (if ciStartsWith "somafm".data (c :: cs) then wsGroup ((c :: cs).drop 6)
       else Option.none) with
    | some g => some g
    | Option.none => searchSomaFMGroup cs

/-- Shared tail of `_extract_station_id`: the URL-path case and the default
lowercase-and-strip case (reached when the `SomaFM` branch is not taken or
its regex does not match). -/
def extractStationIdFallback (stationName : String) : String :=
  if substrB "/" stationName then
    pyLower ((stationName.splitOn "/").getLastD "")
  else
    reSubNonAlnum (removeSpaces (pyLower stationName))

/-- Embedding of `_extract_station_id` from somafm_track_retriever.py. -/
def extractStationId (stationName : String) : String :=
  if substrB "SomaFM" stationName then
    match searchSomaFMGroup stationName.data with
    | some g => reSubNonAlnum (removeSpaces (pyLower ⟨g⟩))
    | Option.none => extractStationIdFallback stationName
  else extractStationIdFallback stationName

/-- Truthiness of an optional string (Python `x or y` chains treat both
`None` and the empty string as falsy). -/
def optStrTruthy : Option String → Bool
  | some s => s ≠ ""
  | Option.none => false

/-- Python `a or b` on optional strings. -/
def pyOrOpt (a b : Option String) : Option String :=
  if optStrTruthy a then a else b

/-- The song objects of the SomaFM JSON feeds, as string-valued JSON
objects (`song.get(key, '')` is `songGet`). -/
abbrev Song := List (String × String)

/-- Python `song.get(key, '')`. -/
def songGet (song : Song) (key : String) : String := (song.lookup key).getD ""

/-- The parsed body of a songs-feed response: either a JSON array of song
objects or something else (`isinstance(data, list)` fails). -/
inductive SongsJson where
  | jlist (songs : List Song)
  | jother

/-- Embedding of `_get_from_json_api`.  The network boundary is the
`resp` argument: `Option.none` models a raised request/parse exception
(swallowed by the bare `except`), `some (status, body)` a response with
its HTTP status code and parsed JSON body. -/
def getFromJsonApi (resp : Option (Nat × SongsJson)) : Option String :=
  match resp with
  | Option.none => Option.none
  | some (status, body) =>
    if status = 200 then
      match body with
      | .jlist (song :: _) =>
        let artist := songGet song "artist"
        let title := songGet song "title"
        let album := songGet song "album"
        if artist ≠ "" ∧ title ≠ "" then
          if album ≠ "" then
            some (artist ++ " - " ++ title ++ " [" ++ album ++ "]")
          else
            some (artist ++ " - " ++ title)
        else if title ≠ "" then some title
        else Option.none
      | .jlist [] => Option.none
      | .jother => Option.none
    else Option.none

/-- The process-wide `_track_cache`: station id to (track info, fetch time). -/
abbrev TrackCache := List (String × (String × ℚ))

/-- Result of one `get_somafm_track_info` call: the returned value, the
updated cache, and whether any of the four retrieval methods was attempted
(false exactly on a cache hit). -/
structure TrackFetchOutcome where
  result : Option String
  cache : TrackCache
  attemptedRetrieval : Bool

/-- Embedding of `get_somafm_track_info`.  The four retrieval methods
(`_get_from_json_api`, `_get_from_recent_api`, `_get_from_channels_api`,
`_get_from_website`) are the oracles `m1`-`m4` (each maps a station id to
`Option String`, all internal errors already absorbed), `now` is
`time.time()`, and `cache` is the module-level `_track_cache`.
`_CACHE_EXPIRY` is 20 seconds. -/
def getSomafmTrackInfo (m1 m2 m3 m4 : String → Option String) (now : ℚ)
    (cache : TrackCache) (stationName : String) : TrackFetchOutcome :=
  let stationId := extractStationId stationName
  let fetch : TrackFetchOutcome :=
    let trackInfo :=
      pyOrOpt (m1 stationId) (pyOrOpt (m2 stationId) (pyOrOpt (m3 stationId) (m4 stationId)))
    let cacheNext :=
      if optStrTruthy trackInfo then assocSet cache stationId (trackInfo.getD "", now)
      else cache
    ⟨trackInfo, cacheNext, true⟩
  match cache.lookup stationId with
  | some (cachedInfo, timestamp) =>
    if now - timestamp < 20 then ⟨some cachedInfo, cache, false⟩ else fetch
  | Option.none => fetch

/-- Embedding of the module-level `is_somafm_station` of
somafm_track_retriever.py. -/
def isSomafmStationModule (stationName : String) : Bool :=
  substrB "somafm" (pyLower stationName) || substrB "soma.fm" (pyLower stationName)

/-! ## RadioPlugin.py: station catalog and `is_somafm_station` -/

/-- The `RADIO_STATIONS` catalog (name, stream URL).  The human-readable
descriptions are unused by any embedded code path and omitted. -/
def RADIO_STATIONS : List (String × String) :=
  [ ("Radio Sidewinder", "https://radiosidewinder.out.airtime.pro:8000/radiosidewinder_b"),
    ("Hutton Orbital Radio", "https://quincy.torontocast.com/hutton"),
    ("SomaFM Deep Space One", "https://ice.somafm.com/deepspaceone"),
    ("SomaFM Groove Salad", "https://ice.somafm.com/groovesalad"),
    ("SomaFM Space Station", "https://ice.somafm.com/spacestation"),
    ("SomaFM Secret Agent", "https://ice.somafm.com/secretagent"),
    ("SomaFM Defcon", "https://ice.somafm.com/defcon"),
    ("SomaFM Lush", "https://ice.somafm.com/lush"),
    ("SomaFM Synphaera", "https://ice.somafm.com/synphaera"),
    ("GalNET Radio", "http://listen.radionomy.com/galnet") ]

/-- The `somafm_identifiers` list of `RadioPlugin.is_somafm_station`. -/
def somafmIdentifiers : List String := ["somafm", "soma.fm"]

/-- The `somafm_station_names` list of `RadioPlugin.is_somafm_station`. -/
def somafmStationNames : List String :=
  [ "deepspaceone", "deep space one",
    "groovesalad", "groove salad",
    "spacestation", "space station",
    "secretagent", "secret agent",
    "defcon", "lush", "synphaera" ]

/-- Embedding of the method `RadioPlugin.is_somafm_station`.  The result is
`Option Bool` because the Python method can fall off the end and return
`None`: its `return False` statement is indented inside the
`if station_name in RADIO_STATIONS:` block, so a name that is not in the
catalog (and matched nothing earlier) produces `None`, not `False`. -/
def isSomafmStationMethod (stationName : String) : Option Bool :=
  let lowerName := pyLower stationName
  if somafmIdentifiers.any (fun i => substrB i lowerName) then some true
  else if somafmStationNames.any (fun n => substrB n lowerName) then some true
  else
    match RADIO_STATIONS.lookup stationName with
    | some url =>
      if substrB "somafm.com" url || substrB "ice.somafm.com" url then some true
      else some false
    | Option.none => Option.none

/-- Truthiness of an `Option Bool` as Python callers see the method's
result (`None` is falsy). -/
def optTruthy : Option Bool → Bool
  | some b => b
  | Option.none => false

/-! ## RadioPlugin.py: RadioPlaybackProjection -/

/-- The state dict of `RadioPlaybackProjection`
(`current_station`, `current_title`, `last_updated`, `command_triggered`). -/
structure ProjState where
  currentStation : PyVal
  currentTitle : PyVal
  lastUpdated : ℚ
  commandTriggered : Bool

/-- Embedding of `RadioPlaybackProjection.get_default_state`. -/
def projDefaultState : ProjState :=
  ⟨PyVal.none, PyVal.none, 0, false⟩

/-- Host events as seen by `RadioPlaybackProjection.process`: a
`PluginEvent` carries its `plugin_event_name`, `plugin_event_content`
(any Python value) and `processed_at` timestamp; `otherEvent` stands for
every event that is not a `PluginEvent`. -/
inductive HostEvent where
  | pluginEvent (pluginEventName : String) (pluginEventContent : PyVal) (processedAt : ℚ)
  | otherEvent

/-- Embedding of `RadioPlaybackProjection.process`.  `now` models the
`time.time()` fallback used when the event carries no (truthy)
`processed_at`.  Wrong event kind, wrong event name or a content that is
not a list of at least two elements leave the state unchanged; the whole
body is wrapped in `try/except`, so the function is total and never
propagates an error. -/
def projectionProcess (now : ℚ) (st : ProjState) : HostEvent → ProjState
  | .otherEvent => st
  | .pluginEvent name content processedAt =>
    if name ≠ "radio_changed" then st
    else
      match content with
      | .pl xs =>
        if xs.length < 2 then st
        else
          let title := xs.getD 0 PyVal.none
          let station := xs.getD 1 PyVal.none
          let command := if xs.length > 2 then xs.getD 2 PyVal.none else .pb false
          let ts := if processedAt ≠ 0 then processedAt else now
          { currentStation := station, currentTitle := title,
            lastUpdated := ts, commandTriggered := pyTruthy command }
      | _ => st

/-! ## RadioPlugin.py: reply-suppression predicate -/

/-- The controller's in-memory reply memory: `_last_replied_title`,
`_last_replied_station` (a `getattr` with default `None`, so a `PyVal`),
`_last_reply_time` and the `_title_repeat_count` dict. -/
structure ReplyMemory where
  lastRepliedTitle : Option String
  lastRepliedStation : PyVal
  lastReplyTime : ℚ
  titleRepeatCount : List (String × Int)

/-- The reply memory of a freshly constructed `RadioPlugin`. -/
def initialReplyMemory : ReplyMemory :=
  ⟨Option.none, PyVal.none, 0, []⟩

/-- Python `d.get(k, 0)` on the repeat-count dict. -/
def countGet (m : List (String × Int)) (k : String) : Int :=
  (m.lookup k).getD 0

/-- The `try: title = content[0]; station = content[1];
command_triggered = content[2] if len(content) > 2 else False` header of
`_should_reply_to_radio_event` (before its `except` clause is applied). -/
def parseEventContent (content : PyVal) : Except PyErr (PyVal × PyVal × PyVal) := do
  let title ← pySubscript content 0
  let station ← pySubscript content 1
  let n ← pyLen content
  if n > 2 then
    let cmd ← pySubscript content 2
    return (title, station, cmd)
  else
    return (title, station, PyVal.pb false)

/-- The projection-consultation block of `_should_reply_to_radio_event`
(returns `true` when the block suppresses the reply with `return False`).
`proj` is the state read from the host's event manager; `Option.none`
models an unavailable event manager or a read that raised (both swallowed).
`norm` is the external `unicodedata.normalize('NFKC', .).casefold()`
boundary.  A non-string truthy `current_title` makes `.strip()` raise
`AttributeError`, which the inner `except` swallows: no suppression. -/
def projectionSuppresses (norm : String → String) (proj : Option ProjState)
    (normalizedTitle : String) (station : PyVal) (commandTriggered : Bool)
    (eventTs : ℚ) : Bool :=
  match proj with
  | Option.none => false
  | some ps =>
    let projTitleStr : Option String :=
      if pyTruthy ps.currentTitle then
        match ps.currentTitle with
        | .ps s => some s
        | _ => Option.none
      else some ""
    match projTitleStr with
    | Option.none => false
    | some s0 =>
      let projTitleNorm := norm (pyStrip s0)
      let projLast := ps.lastUpdated
      if projTitleNorm = normalizedTitle ∧ pyEq ps.currentStation station = true
          ∧ commandTriggered = false then
        if eventTs ≠ 0 ∧ |projLast - eventTs| ≤ 1.5 then false else true
      else false

/-- The repeat-counter and memory-update tail of
`_should_reply_to_radio_event` (reached once the projection and
last-replied checks did not suppress). -/
def replyCounterStep (norm : String → String) (mem : ReplyMemory) (t : String)
    (trackKey : String) (station : PyVal) (cmdT : Bool) (now : ℚ) :
    Bool × ReplyMemory :=
  if cmdT = false then
    let c := countGet mem.titleRepeatCount trackKey + 1
    let mem1 := { mem with titleRepeatCount := assocSet mem.titleRepeatCount trackKey c }
    if c > 1 then (false, mem1)
    else
      let stored := norm (pyStrip t)
      (true, { mem1 with lastRepliedTitle := some stored,
                         lastRepliedStation := station, lastReplyTime := now })
  else
    let mem1 := { mem with titleRepeatCount := assocSet mem.titleRepeatCount trackKey 0 }
    let stored := norm (pyStrip t)
    (true, { mem1 with lastRepliedTitle := some stored,
                       lastRepliedStation := station, lastReplyTime := now })

/-- Embedding of `RadioPlugin._should_reply_to_radio_event`.

`norm` is `unicodedata.normalize('NFKC', .).casefold()`, `proj` the
projection state read through the host (see `projectionSuppresses`),
`eventTs` the event's `processed_at`, `now` the value of `time.time()`
inside the call, `mem` the controller's reply memory, and `content` the
event's `plugin_event_content`.  Returns the decision and the updated
memory, or the uncaught Python exception: the header's `except` clause
only catches `ValueError` and `TypeError`, so an `IndexError` from a
too-short content list (and an `AttributeError` from `title.lower()` on
a truthy non-string title) propagates to the caller. -/
def shouldReplyToRadioEvent (norm : String → String) (proj : Option ProjState)
    (eventTs now : ℚ) (mem : ReplyMemory) (content : PyVal) :
    Except PyErr (Bool × ReplyMemory) :=
  match parseEventContent content with
  | .error e => if e = .typeError then .ok (false, mem) else .error e
  | .ok (title, station, cmdVal) =>
    if pyTruthy title = false then .ok (false, mem)
    else
      match title with
      | .ps t =>
        if substrB "unknown" (pyLower t) then .ok (false, mem)
        else if (pyStrip t).length < 3 then .ok (false, mem)
        else
          let normalizedTitle := pyLower (pyStrip t)
          let lastTitleNorm := pyLower (pyStrip (mem.lastRepliedTitle.getD ""))
          let trackKey := normalizedTitle ++ "|" ++ pyStrOf station
          let cmdT := pyTruthy cmdVal
          if projectionSuppresses norm proj normalizedTitle station cmdT eventTs then
            .ok (false, mem)
          else if normalizedTitle = lastTitleNorm
              ∧ pyEq station mem.lastRepliedStation = true ∧ cmdT = false then
            .ok (false, mem)
          else
            .ok (replyCounterStep norm mem t trackKey station cmdT now)
      | _ => .error .attributeError

/-- The ASCII instantiation of the external
`unicodedata.normalize('NFKC', .).casefold()` boundary, used by concrete
witnesses: on ASCII text NFKC is the identity and casefolding is
lower-casing. -/
def asciiNorm (s : String) : String := pyLower s

/-! ## RadioPlugin.py: track monitor engine (`_monitor_track_changes`)

The monitor loop is embedded as a step function on an explicit state: one
call of `monitorStep` is one pass of the `while not self.stop_monitor`
body.  `time.sleep` only consumes wall-clock time and is dropped; the
current time of each pass is the `tau` argument.  Title acquisition (VLC
metadata or one of the retrievers) is the `acquired` argument:
`Option.none` models the `if not media: continue` skip, `some d` a
display title `d` (a retriever returning Python `None` is `some ""`,
since the code immediately folds it through `(display_title or '')`). -/

/-- The loop-carried locals of `_monitor_track_changes`. -/
structure MonitorState where
  prevStation : Option String
  isSomafm : Bool
  isHutton : Bool
  initialInterval : ℚ
  reducedInterval : ℚ
  checkInterval : ℚ
  startupSequence : Bool
  startupStep : Nat
  prevCheckTitle : Option String
  checksWithoutChange : Nat
  lastTitle : String
  lastEventTime : ℚ
  lastCheckTime : ℚ
  commandTriggered : Bool
deriving DecidableEq

/-- The `radio_changed` `PluginEvent` dispatched by the monitor, with
content `[display_title, current_station, command_triggered]`. -/
structure RadioChangedEvent where
  title : String
  station : Option String
  commandTriggered : Bool
deriving DecidableEq

/-- The outcome of one monitor pass: the next state, the dispatched
events, and whether control reached the steady-state immediate-announce
condition at the bottom of the loop body (the
`if (normalized_title != last_title and ...) or command_triggered:`
line). -/
structure StepResult where
  state : MonitorState
  events : List RadioChangedEvent
  steadyEvaluated : Bool
deriving DecidableEq

/-- Interval selection of the monitor (`initial_interval`,
`reduced_interval`): 100/30 for SomaFM and Hutton stations, 90/15 for
all others. -/
def intervalsFor (isSomafm isHutton : Bool) : ℚ × ℚ :=
  if isSomafm || isHutton then (100, 30) else (90, 15)

/-- The SomaFM classification as the monitor computes it:
`self.is_somafm_station(station) if station else False`, with the
method's possible `None` result used truthily. -/
def stationIsSomafm : Option String → Bool
  | some s => optTruthy (isSomafmStationMethod s)
  | Option.none => false

/-- The Hutton classification: `"hutton" in (station or "").lower()`. -/
def stationIsHutton : Option String → Bool
  | some s => substrB "hutton" (pyLower s)
  | Option.none => false

/-- The monitor state right after the initialization block of
`_monitor_track_changes` (lines up to the `while`): station classified,
intervals chosen, startup sequence armed at step 1, `check_interval`
starting at `reduced_interval`. -/
def monitorInit (station : Option String) (commandTriggered : Bool) : MonitorState :=
  let isSoma := stationIsSomafm station
  let isHut := stationIsHutton station
  let iv := intervalsFor isSoma isHut
  { prevStation := station, isSomafm := isSoma, isHutton := isHut,
    initialInterval := iv.1, reducedInterval := iv.2, checkInterval := iv.2,
    startupSequence := true, startupStep := 1, prevCheckTitle := Option.none,
    checksWithoutChange := 0, lastTitle := "", lastEventTime := 0,
    lastCheckTime := 0, commandTriggered := commandTriggered }

/-- The steady-state tail of the loop body (the code after the startup
block): evaluate the immediate-announce condition and dispatch on it.
The local `command_triggered = False` after a steady dispatch does not
write back to `self.command_triggered`, so the state flag is unchanged. -/
def steadyCheck (stopMonitor : Bool) (currentStation : Option String)
    (display normalized : String) (tau : ℚ) (st : MonitorState) : StepResult :=
  if (normalized ≠ st.lastTitle ∧ tau - st.lastEventTime > 5)
      ∨ st.commandTriggered = true then
    let st2 := { st with lastTitle := normalized, lastEventTime := tau }
    if stopMonitor = false then
      ⟨st2, [⟨display, currentStation, st.commandTriggered⟩], true⟩
    else ⟨st2, [], true⟩
  else ⟨st, [], true⟩

/-- Truthiness guard `current_check and prev_check_title and
current_check != prev_check_title` of the startup comparisons. -/
def startupChanged (current : String) (prev : Option String) : Bool :=
  current ≠ "" && prev.getD "" ≠ "" && current ≠ prev.getD ""

/-- The station-change re-initialization inside the loop (applied to the
state that already recorded `last_check_time = current_time`): on a
station swap, reclassify, recompute intervals, clear detection state and
restart the startup sequence at step 1. -/
def monitorReinit (currentStation : Option String) (st1 : MonitorState) : MonitorState :=
  if currentStation ≠ st1.prevStation then
    let isSoma := stationIsSomafm currentStation
    let isHut := stationIsHutton currentStation
    let iv := intervalsFor isSoma isHut
    { st1 with
      prevStation := currentStation, isSomafm := isSoma, isHutton := isHut,
      initialInterval := iv.1, reducedInterval := iv.2,
      lastTitle := "", lastEventTime := 0, lastCheckTime := 0,
      startupSequence := true, startupStep := 1,
      prevCheckTitle := Option.none }
  else st1

/-- The startup block (`if startup_sequence:`) of the loop body.

The source contains a second, older copy of the startup steps below the
live one; its step 1-3 blocks are unreachable (the live blocks for steps
1-3 end every path with `continue`), and only its step 4 block - the one
place that sets `startup_sequence = False` - is reachable by guard
structure, and only if `startup_step` were ever 4, which no reachable
assignment produces.  A step outside 1-4 falls through the whole block
into the steady-state tail. -/
def startupHandle (stopMonitor : Bool) (currentStation : Option String)
    (display normalized : String) (tau : ℚ) (st2 : MonitorState) : StepResult :=
  if st2.startupStep = 1 then
    -- live step 1: announce immediately, enter lazy mode
    ⟨{ st2 with
        commandTriggered := false, lastTitle := normalized,
        lastEventTime := tau, prevCheckTitle := some normalized,
        startupStep := 2, checkInterval := st2.initialInterval,
        checksWithoutChange := 0, lastCheckTime := tau },
      [⟨display, currentStation, st2.commandTriggered⟩], false⟩
  else if st2.startupStep = 2 then
    -- live step 2: lazy checks, wait for two unchanged readings
    if startupChanged normalized st2.prevCheckTitle then
      ⟨{ st2 with
          commandTriggered := false, lastTitle := normalized,
          lastEventTime := tau, prevCheckTitle := some normalized,
          checksWithoutChange := 0, checkInterval := st2.initialInterval,
          lastCheckTime := tau },
        [⟨display, currentStation, st2.commandTriggered⟩], false⟩
    else
      let cwc := st2.checksWithoutChange + 1
      if cwc ≥ 2 then
        ⟨{ st2 with
            checksWithoutChange := cwc, startupStep := 3,
            checkInterval := st2.reducedInterval, lastCheckTime := tau }, [], false⟩
      else
        ⟨{ st2 with checksWithoutChange := cwc, lastCheckTime := tau }, [], false⟩
  else if st2.startupStep = 3 then
    -- live step 3: active monitoring until the title changes
    if startupChanged normalized st2.prevCheckTitle then
      ⟨{ st2 with
          commandTriggered := false, lastTitle := normalized,
          lastEventTime := tau, prevCheckTitle := some normalized,
          checksWithoutChange := 0, startupStep := 2,
          checkInterval := st2.initialInterval, lastCheckTime := tau },
        [⟨display, currentStation, st2.commandTriggered⟩], false⟩
    else
      ⟨{ st2 with lastCheckTime := tau }, [], false⟩
  else if st2.startupStep = 4 then
    -- dead copy, step 4: announces on change and leaves the startup
    -- sequence either way
    if startupChanged normalized st2.prevCheckTitle then
      ⟨{ st2 with
          commandTriggered := false, lastTitle := normalized,
          lastEventTime := tau, startupSequence := false,
          checkInterval := st2.reducedInterval, startupStep := 0 },
        [⟨display, currentStation, st2.commandTriggered⟩], false⟩
    else
      ⟨{ st2 with
          startupSequence := false,
          checkInterval := st2.reducedInterval, startupStep := 0 }, [], false⟩
  else
    steadyCheck stopMonitor currentStation display normalized tau st2

/-- The loop body after the gates: title acquisition and either the
startup block or the steady-state tail. -/
def monitorBody (norm : String → String) (stopMonitor : Bool)
    (currentStation : Option String) (acquired : Option String) (tau : ℚ)
    (st2 : MonitorState) : StepResult :=
  match acquired with
  | Option.none => ⟨st2, [], false⟩
  | some display =>
    let normalized := norm (pyStrip display)
    if normalized = "" then ⟨st2, [], false⟩
    else if st2.startupSequence then
      startupHandle stopMonitor currentStation display normalized tau st2
    else
      steadyCheck stopMonitor currentStation display normalized tau st2

/-- One pass of the monitor loop body.  `playerPresent` is
`self.player is not None`, `stopMonitor` is `self.stop_monitor`,
`currentStation` is `self.current_station` as read in this pass, and
`norm`, `acquired`, `tau` are as described above.  Event dispatch through
the host is modelled as always succeeding (its `try/except` wrappers
never fire). -/
def monitorStep (norm : String → String) (playerPresent stopMonitor : Bool)
    (currentStation : Option String) (acquired : Option String) (tau : ℚ)
    (st : MonitorState) : StepResult :=
  if stopMonitor then ⟨st, [], false⟩
  else if playerPresent = false then ⟨st, [], false⟩
  else if tau - st.lastCheckTime < st.checkInterval then ⟨st, [], false⟩
  else
    monitorBody norm stopMonitor currentStation acquired tau
      (monitorReinit currentStation { st with lastCheckTime := tau })

/-! ## Spec-side definitions

Definitions written from the words of the specification/claims (not from
the source), used to state refinement comparisons and counterexamples. -/

/-- Modelled from the spec: the number of non-space characters of a title,
as used by the claim "fewer than 3 non-space characters". -/
def specNonSpaceCount (s : String) : Nat :=
  (s.data.filter (fun c => !isPySpace c)).length

/-- Modelled from the spec: the remainder of a string after the first
(case-sensitive) occurrence of a token. -/
def remainderAfterToken (token : List Char) : List Char → List Char
  | [] => []
  | c :: cs =>
    if listStartsWith token (c :: cs) then (c :: cs).drop token.length
    else remainderAfterToken token cs

/-- Modelled from the spec: the station-id derivation exactly as the claim
words it - if the name contains "SomaFM", the remainder after that token
lower-cased with whitespace stripped and every character that is not a
lowercase letter or digit removed; otherwise, if the name contains "/",
the final path segment lower-cased; otherwise the whole name lower-cased
with non-alphanumerics stripped. -/
def extractStationIdClaimed (stationName : String) : String :=
  if substrB "SomaFM" stationName then
    ⟨(pyLower ⟨remainderAfterToken "SomaFM".data stationName.data⟩).data.filter isLowerDigit⟩
  else if substrB "/" stationName then
    pyLower ((stationName.splitOn "/").getLastD "")
  else
    ⟨(pyLower stationName).data.filter isLowerDigit⟩

/-- Modelled from the spec (amended): the fall-through rules - final path
segment lower-cased when the name contains "/", otherwise the whole name
lower-cased with every non-[a-z0-9] character removed. -/
def extractStationIdAmendedFallback (stationName : String) : String :=
  if substrB "/" stationName then
    pyLower ((stationName.splitOn "/").getLastD "")
  else
    ⟨(pyLower stationName).data.filter isLowerDigit⟩

/-- Modelled from the spec (amended): as `extractStationIdClaimed`, but
the "SomaFM" branch applies only when the case-insensitive pattern
"SomaFM" + whitespace + non-empty remainder actually matches, and a name
that contains "SomaFM" without such a match falls through to the
path/default rules. -/
def extractStationIdAmendedSpec (stationName : String) : String :=
  if substrB "SomaFM" stationName then
    match searchSomaFMGroup stationName.data with
    | some g => ⟨(pyLower ⟨g⟩).data.filter isLowerDigit⟩
    | Option.none => extractStationIdAmendedFallback stationName
  else extractStationIdAmendedFallback stationName

/-- Modelled from the spec: a `radio_changed` projection event is
malformed when it is not a `PluginEvent`, is not named "radio_changed",
or its content is not a list of at least two elements. -/
def eventMalformed : HostEvent → Bool
  | .otherEvent => true
  | .pluginEvent n c _ =>
    if n ≠ "radio_changed" then true
    else
      match c with
      | .pl xs => decide (xs.length < 2)
      | _ => true

/-- The observed monitor passes of the C3 startup trace: first reading
`t1` at time 100, unchanged readings at 250 and 400, changed reading `t2`
at 430, for a session started on `name` with command flag `cmd`. -/
def c3R1 (norm : String → String) (name t1 : String) (cmd : Bool) : StepResult :=
  monitorStep norm true false (some name) (some t1) 100 (monitorInit (some name) cmd)

/-- Second pass of the C3 trace (first lazy check, unchanged). -/
def c3R2 (norm : String → String) (name t1 : String) (cmd : Bool) : StepResult :=
  monitorStep norm true false (some name) (some t1) 250 (c3R1 norm name t1 cmd).state

/-- Third pass of the C3 trace (second lazy check, unchanged). -/
def c3R3 (norm : String → String) (name t1 : String) (cmd : Bool) : StepResult :=
  monitorStep norm true false (some name) (some t1) 400 (c3R2 norm name t1 cmd).state

/-- Fourth pass of the C3 trace (active check, changed reading `t2`). -/
def c3R4 (norm : String → String) (name t1 t2 : String) (cmd : Bool) : StepResult :=
  monitorStep norm true false (some name) (some t2) 430 (c3R3 norm name t1 cmd).state

/-- Projection of the reply predicate's outcome onto the returned
decision (`Option.none` when the call raised). -/
def replyResultBool (r : Except PyErr (Bool × ReplyMemory)) : Option Bool :=
  match r with
  | .ok (b, _) => some b
  | .error _ => Option.none

/-- The reply memory after the first accepted non-command notification
for title `A` on station `S` at time `now`. -/
def repeatMem1 (norm : String → String) (A S : String) (now : ℚ) : ReplyMemory :=
  { lastRepliedTitle := some (norm (pyStrip A)), lastRepliedStation := .ps S,
    lastReplyTime := now,
    titleRepeatCount := [(pyLower (pyStrip A) ++ "|" ++ S, 1)] }

/-- The reply memory after a subsequent command-triggered notification
for title `A` on station `S` at time `now` (repeat counter reset to 0). -/
def repeatMem4 (norm : String → String) (A S : String) (now : ℚ) : ReplyMemory :=
  { lastRepliedTitle := some (norm (pyStrip A)), lastRepliedStation := .ps S,
    lastReplyTime := now,
    titleRepeatCount := [(pyLower (pyStrip A) ++ "|" ++ S, 0)] }

/-- The live region of the monitor's startup machine: the startup flag
stays set and the step number stays in {1, 2, 3}.  This holds of the
initial state and is preserved by every pass. -/
def monitorLiveInvariant (st : MonitorState) : Prop :=
  st.startupSequence = true
  ∧ (st.startupStep = 1 ∨ st.startupStep = 2 ∨ st.startupStep = 3)

/-! ## Helper lemmas -/

/-- Removing spaces commutes away under the `[^a-z0-9]` filter: a space
is not in `[a-z0-9]`. -/
theorem filter_nonspace_filter (l : List Char) :
    (l.filter (fun c => c ≠ ' ')).filter isLowerDigit = l.filter isLowerDigit := by
  rw [List.filter_filter]
  refine List.filter_congr (fun c _ => ?_)
  by_cases hc : c = ' '
  · subst hc; decide
  · simp [hc]

/-- String-level version of `filter_nonspace_filter`. -/
theorem reSub_removeSpaces (s : String) :
    reSubNonAlnum (removeSpaces s) = reSubNonAlnum s :=
  congrArg String.mk (filter_nonspace_filter s.data)

/-! ## Claims -/

/-- C6.  When the per-song JSON feed returns a 200 response whose body is
a non-empty list, `_get_from_json_api` formats its first element as
"artist - title [album]" when artist, title and album are all present and
non-empty, as "artist - title" when album is absent, and as the bare
title when artist is absent but title is present. -/
theorem somafm_json_formatting (song : Song) (rest : List Song) (a t al : String) :
    (song.lookup "artist" = some a → a ≠ "" → song.lookup "title" = some t → t ≠ "" →
      song.lookup "album" = some al → al ≠ "" →
      getFromJsonApi (some (200, .jlist (song :: rest)))
        = some (a ++ " - " ++ t ++ " [" ++ al ++ "]"))
    ∧ (song.lookup "artist" = some a → a ≠ "" → song.lookup "title" = some t → t ≠ "" →
      song.lookup "album" = Option.none →
      getFromJsonApi (some (200, .jlist (song :: rest))) = some (a ++ " - " ++ t))
    ∧ (song.lookup "artist" = Option.none → song.lookup "title" = some t → t ≠ "" →
      getFromJsonApi (some (200, .jlist (song :: rest))) = some t) := by
  refine ⟨?_, ?_, ?_⟩
  · intro hart ha htit ht halb hal
    simp [getFromJsonApi, songGet, hart, htit, halb, ha, ht, hal]
  · intro hart ha htit ht halb
    simp [getFromJsonApi, songGet, hart, htit, halb, ha, ht]
  · intro hart htit ht
    simp [getFromJsonApi, songGet, hart, htit, ht]

/-- Witness for C6: the spec's own test vectors (a Bjork song with and
without an album, and a title-only song). -/
theorem somafm_json_formatting_witness :
    getFromJsonApi (some (200, .jlist [[("artist", "Bjork"), ("title", "Army of Me"), ("album", "Post")]]))
      = some "Bjork - Army of Me [Post]"
    ∧ getFromJsonApi (some (200, .jlist [[("artist", "Bjork"), ("title", "Army of Me")]]))
      = some "Bjork - Army of Me"
    ∧ getFromJsonApi (some (200, .jlist [[("title", "Interlude")]]))
      = some "Interlude" := by
  refine ⟨?_, ?_, ?_⟩
  · exact (somafm_json_formatting [("artist", "Bjork"), ("title", "Army of Me"), ("album", "Post")]
      [] "Bjork" "Army of Me" "Post").1 rfl (by decide) rfl (by decide) rfl (by decide)
  · exact (somafm_json_formatting [("artist", "Bjork"), ("title", "Army of Me")]
      [] "Bjork" "Army of Me" "Post").2.1 rfl (by decide) rfl (by decide) rfl
  · exact (somafm_json_formatting [("title", "Interlude")]
      [] "x" "Interlude" "x").2.2 rfl rfl (by decide)

/-- C7.  If the cache holds an entry for the derived station id stored at
time `t`, a call strictly less than 20 seconds later returns exactly the
cached string without attempting any of the four retrieval methods, and a
call 21 or more seconds later attempts a fresh retrieval. -/
theorem somafm_cache_policy (m1 m2 m3 m4 : String → Option String)
    (now t : ℚ) (cache : TrackCache) (name s : String)
    (hc : cache.lookup (extractStationId name) = some (s, t)) :
    (now - t < 20 →
      getSomafmTrackInfo m1 m2 m3 m4 now cache name = ⟨some s, cache, false⟩)
    ∧ (now - t ≥ 21 →
      (getSomafmTrackInfo m1 m2 m3 m4 now cache name).attemptedRetrieval = true) := by
  constructor
  · intro hlt
    simp only [getSomafmTrackInfo, hc]
    rw [if_pos hlt]
  · intro hge
    have hnlt : ¬ now - t < 20 := by linarith
    simp only [getSomafmTrackInfo, hc]
    rw [if_neg hnlt]

/-- Witness for C7: a concrete cache entry stored at time 100, read back
at 110 (hit, no retrieval) and at 121 (miss, retrieval attempted). -/
theorem somafm_cache_policy_witness :
    getSomafmTrackInfo (fun _ => Option.none) (fun _ => Option.none)
        (fun _ => Option.none) (fun _ => Option.none) 110
        [("groovesalad", ("Bjork - Army of Me", 100))] "groovesalad"
      = ⟨some "Bjork - Army of Me", [("groovesalad", ("Bjork - Army of Me", 100))], false⟩
    ∧ (getSomafmTrackInfo (fun _ => Option.none) (fun _ => Option.none)
        (fun _ => Option.none) (fun _ => Option.none) 121
        [("groovesalad", ("Bjork - Army of Me", 100))] "groovesalad").attemptedRetrieval
      = true := by
  constructor
  · exact (somafm_cache_policy _ _ _ _ 110 100
      [("groovesalad", ("Bjork - Army of Me", 100))] "groovesalad" "Bjork - Army of Me"
      (by decide)).1 (by norm_num)
  · exact (somafm_cache_policy _ _ _ _ 121 100
      [("groovesalad", ("Bjork - Army of Me", 100))] "groovesalad" "Bjork - Army of Me"
      (by decide)).2 (by norm_num)

/-- Counterexample for C8: at the input "SomaFM" the code-derived station
id is "somafm" (the regex `SomaFM\s+(.+)` fails, so the code falls
through to the default lower-and-strip rule), while the claim's rule
("the remainder after that token ...") yields the empty string. -/
theorem extract_station_id_counterexample :
    extractStationId "SomaFM" = "somafm"
    ∧ extractStationIdClaimed "SomaFM" = ""
    ∧ extractStationId "SomaFM" ≠ extractStationIdClaimed "SomaFM" := by
  refine ⟨rfl, rfl, ?_⟩
  decide

/-- The fall-through branch of the station-id derivation agrees with its
spec-worded form. -/
theorem extract_fallback_eq (name : String) :
    extractStationIdFallback name = extractStationIdAmendedFallback name := by
  unfold extractStationIdFallback extractStationIdAmendedFallback
  by_cases hsl : substrB "/" name
  · rw [if_pos hsl, if_pos hsl]
  · rw [if_neg hsl, if_neg hsl, reSub_removeSpaces]
    rfl

/-- C8 (amended).  The derived station id follows the claimed rules with
one correction forced by the counterexample: the "SomaFM" branch applies
only when the case-insensitive pattern "SomaFM" + whitespace + non-empty
remainder matches, and a name containing "SomaFM" without such a match
falls through to the path/default rules. -/
theorem extract_station_id_amended (name : String) :
    extractStationId name = extractStationIdAmendedSpec name := by
  unfold extractStationId extractStationIdAmendedSpec
  by_cases hs : substrB "SomaFM" name
  · rw [if_pos hs, if_pos hs]
    cases hg : searchSomaFMGroup name.data with
    | none => simp only [hg]; exact extract_fallback_eq name
    | some g => simp only [hg, reSub_removeSpaces]; rfl
  · rw [if_neg hs, if_neg hs]
    exact extract_fallback_eq name

/-- C9.  Any malformed event (not a `PluginEvent`, wrong event name, or a
content that is not a list of at least two elements) leaves the
`RadioPlaybackProjection` state completely unchanged; the embedded
`projectionProcess` is a total function, mirroring the source's
catch-all `try/except`, so no error is surfaced. -/
theorem projection_ignores_malformed (now : ℚ) (st : ProjState) (e : HostEvent)
    (h : eventMalformed e = true) :
    projectionProcess now st e = st := by
  cases e with
  | otherEvent => rfl
  | pluginEvent n c ts =>
    simp only [eventMalformed] at h
    simp only [projectionProcess]
    by_cases hn : n ≠ "radio_changed"
    · rw [if_pos hn]
    · rw [if_neg hn]
      rw [if_neg hn] at h
      cases c with
      | pl xs =>
        simp only [decide_eq_true_eq] at h
        simp [h]
      | none => rfl
      | pb b => rfl
      | pi k => rfl
      | ps s => rfl

/-- Witness for C9: a `radio_changed` event whose content list has only
one element is ignored by a projection state that already holds data. -/
theorem projection_ignores_malformed_witness :
    projectionProcess 50 ⟨.ps "GalNET Radio", .ps "Song A", 10, true⟩
      (.pluginEvent "radio_changed" (.pl [.ps "Song B"]) 42)
      = ⟨.ps "GalNET Radio", .ps "Song A", 10, true⟩ := by
  exact projection_ignores_malformed 50 ⟨.ps "GalNET Radio", .ps "Song A", 10, true⟩
    (.pluginEvent "radio_changed" (.pl [.ps "Song B"]) 42) (by decide)

/-- C10.  A station name with no SomaFM identifier, matching none of the
hard-coded SomaFM station substrings and absent from the catalog makes
`RadioPlugin.is_somafm_station` return `None` (not `False`): its final
`return False` is reachable only for catalog names.  Callers testing
truthiness still classify such a station as non-SomaFM. -/
theorem is_somafm_station_returns_none (name : String)
    (h1 : somafmIdentifiers.any (fun i => substrB i (pyLower name)) = false)
    (h2 : somafmStationNames.any (fun k => substrB k (pyLower name)) = false)
    (h3 : RADIO_STATIONS.lookup name = Option.none) :
    isSomafmStationMethod name = Option.none
    ∧ optTruthy (isSomafmStationMethod name) = false := by
  have hm : isSomafmStationMethod name = Option.none := by
    simp only [isSomafmStationMethod, h1, h2, h3]
    rfl
  exact ⟨hm, by rw [hm]; rfl⟩

/-- Witness for C10: "BBC Radio 2" is not SomaFM-marked, matches no known
SomaFM station substring and is not in the catalog; the method returns
`None` and truthiness classifies it as non-SomaFM. -/
theorem is_somafm_station_returns_none_witness :
    isSomafmStationMethod "BBC Radio 2" = Option.none
    ∧ optTruthy (isSomafmStationMethod "BBC Radio 2") = false := by
  exact is_somafm_station_returns_none "BBC Radio 2" (by decide) (by decide) (by decide)

/-- C1 (code bug).  A `radio_changed` content list shorter than two
elements makes `_should_reply_to_radio_event` raise `IndexError` to its
caller: the header's `except (ValueError, TypeError)` clause does not
catch it, contradicting the spec's no-raise policy.  An absent (`None`)
or non-subscriptable content, by contrast, raises `TypeError`, which is
caught, logged, and answered with `False` as the spec describes. -/
theorem reply_short_content_raises_index_error :
    shouldReplyToRadioEvent asciiNorm Option.none 0 0 initialReplyMemory (.pl [])
      = .error .indexError
    ∧ shouldReplyToRadioEvent asciiNorm Option.none 0 0 initialReplyMemory
        (.pl [.ps "Only Title"])
      = .error .indexError
    ∧ shouldReplyToRadioEvent asciiNorm Option.none 0 0 initialReplyMemory .none
      = .ok (false, initialReplyMemory)
    ∧ shouldReplyToRadioEvent asciiNorm Option.none 0 0 initialReplyMemory (.pi 5)
      = .ok (false, initialReplyMemory) :=
  ⟨rfl, rfl, rfl, rfl⟩

/-- Counterexample for C5: the title "a b" has 2 non-space characters
(fewer than 3), yet with fresh memory and no projection the predicate
replies `True` - the code tests `len(title.strip()) < 3`, which is 3
here, not the count of non-space characters. -/
theorem reply_nonspace_counterexample :
    specNonSpaceCount "a b" = 2
    ∧ (pyStrip "a b").length = 3
    ∧ replyResultBool (shouldReplyToRadioEvent asciiNorm Option.none 0 0
        initialReplyMemory (.pl [.ps "a b", .ps "StationX"])) = some true := by
  refine ⟨by decide, by decide, rfl⟩

/-- C5 (amended).  For every station, every command-triggered value,
every memory and every projection state, the predicate rejects a
notification whose title is absent (or otherwise falsy), contains the
substring "unknown" in any letter case, or has fewer than 3 characters
after trimming leading and trailing whitespace. -/
theorem reply_invalid_title_rejected (norm : String → String) (proj : Option ProjState)
    (eventTs now : ℚ) (mem : ReplyMemory) (title station cmd : PyVal)
    (h : pyTruthy title = false
       ∨ ∃ s, title = .ps s
            ∧ (substrB "unknown" (pyLower s) = true ∨ (pyStrip s).length < 3)) :
    shouldReplyToRadioEvent norm proj eventTs now mem (.pl [title, station, cmd])
      = .ok (false, mem) := by
  have hparse : parseEventContent (.pl [title, station, cmd]) = .ok (title, station, cmd) := rfl
  unfold shouldReplyToRadioEvent
  rw [hparse]
  rcases h with hf | ⟨s, hs, hrest⟩
  · simp [hf]
  · subst hs
    by_cases ht : pyTruthy (.ps s) = false
    · simp [ht]
    · rcases hrest with hu | hl
      · simp [ht, hu]
      · by_cases hu2 : substrB "unknown" (pyLower s) = true
        · simp [ht, hu2]
        · simp [ht, hu2, hl]

/-- Witness for C5 (amended): a 2-character title, an "UNKNOWN" title and
an absent title are all rejected. -/
theorem reply_invalid_title_rejected_witness :
    shouldReplyToRadioEvent asciiNorm Option.none 0 0 initialReplyMemory
      (.pl [.ps "ab", .ps "StationX", .pb true]) = .ok (false, initialReplyMemory)
    ∧ shouldReplyToRadioEvent asciiNorm Option.none 0 0 initialReplyMemory
      (.pl [.ps "UNKNOWN Artist", .ps "StationX", .pb false]) = .ok (false, initialReplyMemory)
    ∧ shouldReplyToRadioEvent asciiNorm Option.none 0 0 initialReplyMemory
      (.pl [.none, .ps "StationX", .pb false]) = .ok (false, initialReplyMemory) :=
  ⟨reply_invalid_title_rejected asciiNorm Option.none 0 0 initialReplyMemory
      (.ps "ab") (.ps "StationX") (.pb true)
      (Or.inr ⟨"ab", rfl, Or.inr (by decide)⟩),
   reply_invalid_title_rejected asciiNorm Option.none 0 0 initialReplyMemory
      (.ps "UNKNOWN Artist") (.ps "StationX") (.pb false)
      (Or.inr ⟨"UNKNOWN Artist", rfl, Or.inl (by decide)⟩),
   reply_invalid_title_rejected asciiNorm Option.none 0 0 initialReplyMemory
      .none (.ps "StationX") (.pb false)
      (Or.inl (by decide))⟩

/-- C4.  Starting from fresh memory, with a projection that does not
suppress (the persisted record does not match the notification), a
non-command sequence `A, A, A` on station `S` is eligible only on the
first `A`; the second and third are suppressed with no memory change; a
following command-triggered `A` is eligible and resets the per-(title,
station) repeat counter to 0.  `hA...` say the title passes the validity
checks; `hnorm` says the stored NFKC-casefolded title round-trips through
the predicate's trim+lower comparison (true of ASCII titles). -/
theorem reply_repeat_policy (norm : String → String) (A S : String)
    (proj : Option ProjState) (ts now1 now2 now3 now4 : ℚ)
    (hA1 : A ≠ "") (hA2 : substrB "unknown" (pyLower A) = false)
    (hA3 : ¬ (pyStrip A).length < 3)
    (hproj : ∀ c t, projectionSuppresses norm proj (pyLower (pyStrip A)) (.ps S) c t = false)
    (hnorm : pyLower (pyStrip (norm (pyStrip A))) = pyLower (pyStrip A)) :
    shouldReplyToRadioEvent norm proj ts now1 initialReplyMemory
        (.pl [.ps A, .ps S, .pb false]) = .ok (true, repeatMem1 norm A S now1)
    ∧ shouldReplyToRadioEvent norm proj ts now2 (repeatMem1 norm A S now1)
        (.pl [.ps A, .ps S, .pb false]) = .ok (false, repeatMem1 norm A S now1)
    ∧ shouldReplyToRadioEvent norm proj ts now3 (repeatMem1 norm A S now1)
        (.pl [.ps A, .ps S, .pb false]) = .ok (false, repeatMem1 norm A S now1)
    ∧ shouldReplyToRadioEvent norm proj ts now4 (repeatMem1 norm A S now1)
        (.pl [.ps A, .ps S, .pb true]) = .ok (true, repeatMem4 norm A S now4)
    ∧ countGet (repeatMem4 norm A S now4).titleRepeatCount
        (pyLower (pyStrip A) ++ "|" ++ S) = 0 := by
  have hparseF : parseEventContent (.pl [.ps A, .ps S, .pb false])
      = .ok (.ps A, .ps S, .pb false) := rfl
  have hparseT : parseEventContent (.pl [.ps A, .ps S, .pb true])
      = .ok (.ps A, .ps S, .pb true) := rfl
  have htr : pyTruthy (.ps A) = true := by simp [pyTruthy, hA1]
  refine ⟨?_, ?_, ?_, ?_, ?_⟩
  · unfold shouldReplyToRadioEvent
    rw [hparseF]
    simp [htr, hA1, hA2, hA3, hproj, pyEq, pyTruthy, replyCounterStep, countGet, assocSet,
      initialReplyMemory, repeatMem1, pyStrOf]
  · unfold shouldReplyToRadioEvent
    rw [hparseF]
    simp [htr, hA1, hA2, hA3, hproj, pyEq, pyTruthy, repeatMem1, hnorm, pyStrOf]
  · unfold shouldReplyToRadioEvent
    rw [hparseF]
    simp [htr, hA1, hA2, hA3, hproj, pyEq, pyTruthy, repeatMem1, hnorm, pyStrOf]
  · unfold shouldReplyToRadioEvent
    rw [hparseT]
    simp [htr, hA1, hA2, hA3, hproj, pyEq, pyTruthy, replyCounterStep, countGet, assocSet,
      repeatMem1, repeatMem4, hnorm, pyStrOf]
  · simp [repeatMem4, countGet]

/-- The startup block preserves the live invariant and never reaches the
steady-state tail. -/
theorem startupHandle_inv (stop : Bool) (cs : Option String) (d nz : String)
    (tau : ℚ) (st : MonitorState) (hseq : st.startupSequence = true)
    (h : st.startupStep = 1 ∨ st.startupStep = 2 ∨ st.startupStep = 3) :
    monitorLiveInvariant (startupHandle stop cs d nz tau st).state
    ∧ (startupHandle stop cs d nz tau st).steadyEvaluated = false := by
  rcases h with h | h | h
  · simp [startupHandle, h, monitorLiveInvariant, hseq]
  · simp only [startupHandle, h]
    by_cases hc : startupChanged nz st.prevCheckTitle
    · simp [hc, monitorLiveInvariant, hseq]
    · by_cases h2 : st.checksWithoutChange + 1 ≥ 2 <;>
        simp [hc, h2, monitorLiveInvariant, hseq]
  · simp only [startupHandle, h]
    by_cases hc : startupChanged nz st.prevCheckTitle <;>
      simp [hc, monitorLiveInvariant, hseq]

/-- Station-change re-initialization preserves the live invariant. -/
theorem monitorReinit_inv (cs : Option String) (st : MonitorState)
    (hinv : monitorLiveInvariant st) : monitorLiveInvariant (monitorReinit cs st) := by
  unfold monitorReinit
  by_cases h : cs ≠ st.prevStation
  · rw [if_pos h]; exact ⟨rfl, Or.inl rfl⟩
  · rw [if_neg h]; exact hinv

/-- The loop body after the gates preserves the live invariant and never
evaluates the steady-state condition. -/
theorem monitorBody_inv (norm : String → String) (stop : Bool)
    (cs acq : Option String) (tau : ℚ) (st : MonitorState)
    (hinv : monitorLiveInvariant st) :
    monitorLiveInvariant (monitorBody norm stop cs acq tau st).state
    ∧ (monitorBody norm stop cs acq tau st).steadyEvaluated = false := by
  obtain ⟨hseq, hstep⟩ := hinv
  cases acq with
  | none => exact ⟨⟨hseq, hstep⟩, rfl⟩
  | some d =>
    simp only [monitorBody]
    by_cases hz : norm (pyStrip d) = ""
    · rw [if_pos hz]; exact ⟨⟨hseq, hstep⟩, rfl⟩
    · rw [if_neg hz, if_pos hseq]
      exact startupHandle_inv stop cs d (norm (pyStrip d)) tau st hseq hstep

/-- A non-stopped pass with a present player, a due check and no station
change reduces to the loop body on the time-stamped state. -/
theorem monitorStep_run (norm : String → String) (cs : Option String) (acq : Option String)
    (tau : ℚ) (st : MonitorState)
    (hgate : ¬ tau - st.lastCheckTime < st.checkInterval)
    (hst : cs = st.prevStation) :
    monitorStep norm true false cs acq tau st =
      monitorBody norm false cs acq tau { st with lastCheckTime := tau } := by
  unfold monitorStep
  rw [if_neg (by simp), if_neg (by simp), if_neg hgate]
  unfold monitorReinit
  rw [if_neg (by simp [hst])]

/-- Live step 1 of the startup machine: always announce, rebase, clear
the command flag, enter lazy mode. -/
theorem monitorBody_step1 (norm : String → String) (cs : Option String) (d : String)
    (tau : ℚ) (st : MonitorState)
    (hne : ¬ norm (pyStrip d) = "") (hseq : st.startupSequence = true)
    (hstep : st.startupStep = 1) :
    monitorBody norm false cs (some d) tau st =
      ⟨{ st with
          commandTriggered := false, lastTitle := norm (pyStrip d),
          lastEventTime := tau, prevCheckTitle := some (norm (pyStrip d)),
          startupStep := 2, checkInterval := st.initialInterval,
          checksWithoutChange := 0, lastCheckTime := tau },
        [⟨d, cs, st.commandTriggered⟩], false⟩ := by
  simp only [monitorBody]
  rw [if_neg hne, if_pos hseq]
  simp only [startupHandle]
  rw [if_pos hstep]

/-- Live step 2 on an unchanged reading: count the unchanged check and
either stay lazy or (on the second) switch to active step 3. -/
theorem monitorBody_step2_unchanged (norm : String → String) (cs : Option String)
    (d : String) (tau : ℚ) (st : MonitorState)
    (hne : ¬ norm (pyStrip d) = "") (hseq : st.startupSequence = true)
    (hstep : st.startupStep = 2)
    (hch : startupChanged (norm (pyStrip d)) st.prevCheckTitle = false) :
    monitorBody norm false cs (some d) tau st =
      (if st.checksWithoutChange + 1 ≥ 2 then
        ⟨{ st with
            checksWithoutChange := st.checksWithoutChange + 1, startupStep := 3,
            checkInterval := st.reducedInterval, lastCheckTime := tau }, [], false⟩
      else
        ⟨{ st with
            checksWithoutChange := st.checksWithoutChange + 1,
            lastCheckTime := tau }, [], false⟩) := by
  simp only [monitorBody]
  rw [if_neg hne, if_pos hseq]
  simp only [startupHandle]
  rw [if_neg (by simp [hstep]), if_pos hstep, if_neg (by simp [hch])]

/-- Live step 3 on a changed reading: announce, rebase, return to lazy
step 2. -/
theorem monitorBody_step3_changed (norm : String → String) (cs : Option String)
    (d : String) (tau : ℚ) (st : MonitorState)
    (hne : ¬ norm (pyStrip d) = "") (hseq : st.startupSequence = true)
    (hstep : st.startupStep = 3)
    (hch : startupChanged (norm (pyStrip d)) st.prevCheckTitle = true) :
    monitorBody norm false cs (some d) tau st =
      ⟨{ st with
          commandTriggered := false, lastTitle := norm (pyStrip d),
          lastEventTime := tau, prevCheckTitle := some (norm (pyStrip d)),
          checksWithoutChange := 0, startupStep := 2,
          checkInterval := st.initialInterval, lastCheckTime := tau },
        [⟨d, cs, st.commandTriggered⟩], false⟩ := by
  simp only [monitorBody]
  rw [if_neg hne, if_pos hseq]
  simp only [startupHandle]
  rw [if_neg (by simp [hstep]), if_neg (by simp [hstep]), if_pos hstep, if_pos hch]

/-- Counterexample for C2: an iteration in lazy step 2 whose session
command-triggered flag is set and not yet consumed, with a non-empty
title reading equal to the baseline.  The claim's immediate-announce
condition holds (flag set, unconsumed), yet the pass emits no
notification: the startup machine consumes every iteration before the
immediate-announce condition at the bottom of the loop body can run. -/
theorem immediate_announce_counterexample :
    (MonitorState.mk (some "GalNET Radio") false false 90 15 90 true 2
        (some "song a") 0 "song a" 0 0 true).commandTriggered = true
    ∧ asciiNorm (pyStrip "Song A") ≠ ""
    ∧ (monitorStep asciiNorm true false (some "GalNET Radio") (some "Song A") 100
        (MonitorState.mk (some "GalNET Radio") false false 90 15 90 true 2
          (some "song a") 0 "song a" 0 0 true)).events = []
    ∧ (monitorStep asciiNorm true false (some "GalNET Radio") (some "Song A") 100
        (MonitorState.mk (some "GalNET Radio") false false 90 15 90 true 2
          (some "song a") 0 "song a" 0 0 true)).steadyEvaluated = false := by
  refine ⟨rfl, by decide, ?_, ?_⟩ <;>
  · rw [monitorStep_run asciiNorm (some "GalNET Radio") (some "Song A") 100 _
        (by norm_num) rfl,
      monitorBody_step2_unchanged asciiNorm (some "GalNET Radio") "Song A" 100 _
        (by decide) rfl rfl (by decide),
      if_neg (by norm_num)]

/-- C2 (amended).  The immediate-announce condition is evaluated only in
an iteration that the startup state machine leaves unhandled, and no such
iteration exists: the monitor starts with the startup flag set at step 1,
every pass preserves the flag and keeps the step in {1, 2, 3} (the code
that would leave the startup sequence is unreachable), so the
steady-state immediate-announce condition is never evaluated. -/
theorem steady_condition_never_evaluated (norm : String → String)
    (player stop : Bool) (cs acq : Option String) (tau : ℚ) (st : MonitorState)
    (station0 : Option String) (cmd0 : Bool)
    (hinv : monitorLiveInvariant st) :
    monitorLiveInvariant (monitorInit station0 cmd0)
    ∧ monitorLiveInvariant (monitorStep norm player stop cs acq tau st).state
    ∧ (monitorStep norm player stop cs acq tau st).steadyEvaluated = false := by
  obtain ⟨hseq, hstep⟩ := hinv
  refine ⟨⟨rfl, Or.inl rfl⟩, ?_⟩
  unfold monitorStep
  split_ifs with h1 h2 h3
  · exact ⟨⟨hseq, hstep⟩, rfl⟩
  · exact ⟨⟨hseq, hstep⟩, rfl⟩
  · exact ⟨⟨hseq, hstep⟩, rfl⟩
  · exact monitorBody_inv norm stop cs acq tau _
      (monitorReinit_inv cs { st with lastCheckTime := tau } ⟨hseq, hstep⟩)

/-- Witness for C2 (amended): the invariant holds of a fresh session for
"GalNET Radio" and is preserved, with no steady evaluation, on its first
pass. -/
theorem steady_condition_never_evaluated_witness :
    monitorLiveInvariant (monitorInit (some "GalNET Radio") true)
    ∧ monitorLiveInvariant
        (monitorStep asciiNorm true false (some "GalNET Radio") (some "Song A") 100
          (monitorInit (some "GalNET Radio") true)).state
    ∧ (monitorStep asciiNorm true false (some "GalNET Radio") (some "Song A") 100
        (monitorInit (some "GalNET Radio") true)).steadyEvaluated = false :=
  steady_condition_never_evaluated asciiNorm true false (some "GalNET Radio")
    (some "Song A") 100 (monitorInit (some "GalNET Radio") true)
    (some "GalNET Radio") true ⟨rfl, Or.inl rfl⟩

/-- C3.  For a session on a non-SomaFM, non-Hutton station the intervals
are lazy = 90s and active = 15s; the first successful reading always
emits a change notification and records the title as baseline (step 1);
two consecutive unchanged lazy readings switch the engine to active
polling (step 3, 15s interval); and a reading in step 3 that differs from
the baseline emits a notification, makes the new reading the baseline,
and returns the engine to lazy polling (step 2, 90s interval). -/
theorem startup_state_machine_trace (norm : String → String) (name t1 t2 : String)
    (cmd : Bool)
    (hsoma : stationIsSomafm (some name) = false)
    (hhut : stationIsHutton (some name) = false)
    (h1 : ¬ norm (pyStrip t1) = "")
    (h2 : ¬ norm (pyStrip t2) = "")
    (h12 : ¬ norm (pyStrip t2) = norm (pyStrip t1)) :
    (monitorInit (some name) cmd).initialInterval = 90
    ∧ (monitorInit (some name) cmd).reducedInterval = 15
    ∧ (c3R1 norm name t1 cmd).events = [⟨t1, some name, cmd⟩]
    ∧ (c3R1 norm name t1 cmd).state.prevCheckTitle = some (norm (pyStrip t1))
    ∧ (c3R1 norm name t1 cmd).state.startupStep = 2
    ∧ (c3R1 norm name t1 cmd).state.checkInterval = 90
    ∧ (c3R2 norm name t1 cmd).events = []
    ∧ (c3R2 norm name t1 cmd).state.startupStep = 2
    ∧ (c3R3 norm name t1 cmd).events = []
    ∧ (c3R3 norm name t1 cmd).state.startupStep = 3
    ∧ (c3R3 norm name t1 cmd).state.checkInterval = 15
    ∧ (c3R4 norm name t1 t2 cmd).events = [⟨t2, some name, false⟩]
    ∧ (c3R4 norm name t1 t2 cmd).state.prevCheckTitle = some (norm (pyStrip t2))
    ∧ (c3R4 norm name t1 t2 cmd).state.startupStep = 2
    ∧ (c3R4 norm name t1 t2 cmd).state.checkInterval = 90 := by
  have e0 : monitorInit (some name) cmd
      = MonitorState.mk (some name) false false 90 15 15 true 1 Option.none 0 "" 0 0 cmd := by
    simp [monitorInit, hsoma, hhut, intervalsFor]
  have e1 : c3R1 norm name t1 cmd
      = ⟨MonitorState.mk (some name) false false 90 15 90 true 2
          (some (norm (pyStrip t1))) 0 (norm (pyStrip t1)) 100 100 false,
        [⟨t1, some name, cmd⟩], false⟩ := by
    unfold c3R1
    rw [e0, monitorStep_run norm (some name) (some t1) 100 _ (by norm_num) rfl,
      monitorBody_step1 norm (some name) t1 100 _ h1 rfl rfl]
  have e2 : c3R2 norm name t1 cmd
      = ⟨MonitorState.mk (some name) false false 90 15 90 true 2
          (some (norm (pyStrip t1))) 1 (norm (pyStrip t1)) 100 250 false,
        [], false⟩ := by
    unfold c3R2
    rw [e1]
    dsimp only
    rw [monitorStep_run norm (some name) (some t1) 250 _ (by norm_num) rfl,
      monitorBody_step2_unchanged norm (some name) t1 250 _ h1 rfl rfl
        (by simp [startupChanged]),
      if_neg (by norm_num)]
  have e3 : c3R3 norm name t1 cmd
      = ⟨MonitorState.mk (some name) false false 90 15 15 true 3
          (some (norm (pyStrip t1))) 2 (norm (pyStrip t1)) 100 400 false,
        [], false⟩ := by
    unfold c3R3
    rw [e2]
    dsimp only
    rw [monitorStep_run norm (some name) (some t1) 400 _ (by norm_num) rfl,
      monitorBody_step2_unchanged norm (some name) t1 400 _ h1 rfl rfl
        (by simp [startupChanged]),
      if_pos (by norm_num)]
  have e4 : c3R4 norm name t1 t2 cmd
      = ⟨MonitorState.mk (some name) false false 90 15 90 true 2
          (some (norm (pyStrip t2))) 0 (norm (pyStrip t2)) 430 430 false,
        [⟨t2, some name, false⟩], false⟩ := by
    unfold c3R4
    rw [e3]
    dsimp only
    rw [monitorStep_run norm (some name) (some t2) 430 _ (by norm_num) rfl,
      monitorBody_step3_changed norm (some name) t2 430 _ h2 rfl rfl
        (by simp [startupChanged, h1, h2, h12])]
  refine ⟨?_, ?_, ?_, ?_, ?_, ?_, ?_, ?_, ?_, ?_, ?_, ?_, ?_, ?_, ?_⟩ <;>
    simp only [e0, e1, e2, e3, e4]

/-- Witness for C3: the trace on "GalNET Radio" (neither SomaFM nor
Hutton) with readings "Song A", "Song A", "Song A", "Song B" and a
command-triggered start. -/
theorem startup_state_machine_trace_witness :
    (monitorInit (some "GalNET Radio") true).initialInterval = 90
    ∧ (monitorInit (some "GalNET Radio") true).reducedInterval = 15
    ∧ (c3R1 asciiNorm "GalNET Radio" "Song A" true).events
        = [⟨"Song A", some "GalNET Radio", true⟩]
    ∧ (c3R1 asciiNorm "GalNET Radio" "Song A" true).state.prevCheckTitle
        = some (asciiNorm (pyStrip "Song A"))
    ∧ (c3R1 asciiNorm "GalNET Radio" "Song A" true).state.startupStep = 2
    ∧ (c3R1 asciiNorm "GalNET Radio" "Song A" true).state.checkInterval = 90
    ∧ (c3R2 asciiNorm "GalNET Radio" "Song A" true).events = []
    ∧ (c3R2 asciiNorm "GalNET Radio" "Song A" true).state.startupStep = 2
    ∧ (c3R3 asciiNorm "GalNET Radio" "Song A" true).events = []
    ∧ (c3R3 asciiNorm "GalNET Radio" "Song A" true).state.startupStep = 3
    ∧ (c3R3 asciiNorm "GalNET Radio" "Song A" true).state.checkInterval = 15
    ∧ (c3R4 asciiNorm "GalNET Radio" "Song A" "Song B" true).events
        = [⟨"Song B", some "GalNET Radio", false⟩]
    ∧ (c3R4 asciiNorm "GalNET Radio" "Song A" "Song B" true).state.prevCheckTitle
        = some (asciiNorm (pyStrip "Song B"))
    ∧ (c3R4 asciiNorm "GalNET Radio" "Song A" "Song B" true).state.startupStep = 2
    ∧ (c3R4 asciiNorm "GalNET Radio" "Song A" "Song B" true).state.checkInterval = 90 :=
  startup_state_machine_trace asciiNorm "GalNET Radio" "Song A" "Song B" true
    (by decide) (by decide) (by decide) (by decide) (by decide)

/-- Witness for C4: the ASCII sequence "Army of Me" on "Groove Salad"
with no available projection, times 1..4. -/
theorem reply_repeat_policy_witness :
    shouldReplyToRadioEvent asciiNorm Option.none 0 1 initialReplyMemory
        (.pl [.ps "Army of Me", .ps "Groove Salad", .pb false])
      = .ok (true, repeatMem1 asciiNorm "Army of Me" "Groove Salad" 1)
    ∧ shouldReplyToRadioEvent asciiNorm Option.none 0 2
        (repeatMem1 asciiNorm "Army of Me" "Groove Salad" 1)
        (.pl [.ps "Army of Me", .ps "Groove Salad", .pb false])
      = .ok (false, repeatMem1 asciiNorm "Army of Me" "Groove Salad" 1)
    ∧ shouldReplyToRadioEvent asciiNorm Option.none 0 3
        (repeatMem1 asciiNorm "Army of Me" "Groove Salad" 1)
        (.pl [.ps "Army of Me", .ps "Groove Salad", .pb false])
      = .ok (false, repeatMem1 asciiNorm "Army of Me" "Groove Salad" 1)
    ∧ shouldReplyToRadioEvent asciiNorm Option.none 0 4
        (repeatMem1 asciiNorm "Army of Me" "Groove Salad" 1)
        (.pl [.ps "Army of Me", .ps "Groove Salad", .pb true])
      = .ok (true, repeatMem4 asciiNorm "Army of Me" "Groove Salad" 4)
    ∧ countGet (repeatMem4 asciiNorm "Army of Me" "Groove Salad" 4).titleRepeatCount
        (pyLower (pyStrip "Army of Me") ++ "|" ++ "Groove Salad") = 0 :=
  reply_repeat_policy asciiNorm "Army of Me" "Groove Salad" Option.none 0 1 2 3 4
    (by decide) (by decide) (by decide) (fun c t => rfl) (by decide)

end CNRadio
